import Mathlib

/-!
Verification of the pagination, filtering and verse-segmentation core of the
online-song-library service, embedded shallowly from the Go sources:
`internal/entity/song.go`, `internal/usecase/song.go` and
`internal/adapter/repository/postgres/song.go`.  `uuid.UUID` identifiers are
modelled as `Nat`, `time.Time` as a calendar-date record, SQL `NULL`-able
columns as `Option`, the `songs` table as a list of rows, and the two
collaborators of the use case (music-info API, repository) as explicit
parameters.  Go's `uint64` arithmetic is `Nat` with an explicit `% 2 ^ 64`
where overflow can occur.
-/

/-- Model of Go `time.Time` restricted to its calendar-date components,
which is all the repository ever stores or compares. -/
structure GoTime where
  Year : Nat
  Month : Nat
  Day : Nat
deriving DecidableEq

/-- The zero value of Go `time.Time`: January 1, year 1. -/
def GoTime.zero : GoTime := ⟨1, 1, 1⟩

/-- Model of Go `time.Time.IsZero`. -/
def GoTime.IsZero (t : GoTime) : Bool := decide (t = GoTime.zero)

/-- Strict ordering on dates, modelling SQL `<` on `release_date`. -/
def GoTime.ltb (a b : GoTime) : Bool :=
  decide (a.Year < b.Year ∨ (a.Year = b.Year ∧
    (a.Month < b.Month ∨ (a.Month = b.Month ∧ a.Day < b.Day))))

/-- Embedded `entity.SongDetail`. -/
structure SongDetail where
  ReleaseDate : GoTime
  Text : String
  Link : String
deriving DecidableEq

/-- Embedded `entity.Song` (uuid as `Nat`). -/
structure Song where
  ID : Nat
  GroupName : String
  Name : String
  SongDetail : SongDetail
  CreatedAt : GoTime
  UpdatedAt : GoTime
deriving DecidableEq

/-- Embedded `entity.SongWithVerses`. -/
structure SongWithVerses where
  ID : Nat
  GroupName : String
  Name : String
  Verses : List String
  CreatedAt : GoTime
  UpdatedAt : GoTime
deriving DecidableEq

/-- Embedded `entity.Pagination`; all four fields are Go `uint64`. -/
structure Pagination where
  Offset : Nat
  Limit : Nat
  Items : Nat
  Total : Nat
deriving DecidableEq

/-- The `entity.DefaultOffset` constant. -/
def DefaultOffset : Nat := 0

/-- The `entity.DefaultLimit` constant. -/
def DefaultLimit : Nat := 20

/-- Embedded `entity.Pagination.IsEmpty`. -/
def Pagination.IsEmpty (p : Pagination) : Bool :=
  p.Offset == 0 && p.Limit == 0

/-- Embedded `entity.Pagination.SetDefault`. -/
def Pagination.SetDefault (p : Pagination) : Pagination :=
  { p with Offset := DefaultOffset, Limit := DefaultLimit }

/-- The `if pagination.IsEmpty() { pagination.SetDefault() }` idiom shared by
`SongRepository.GetAll` and `SongUseCase.FetchSongWithVerses`. -/
def Pagination.applyDefault (p : Pagination) : Pagination :=
  if p.IsEmpty then p.SetDefault else p

/-- Embedded `entity.SongFilterField` enumeration. -/
inductive SongFilterField where
  | groupName
  | name
  | releaseYear
  | releaseDate
  | releaseDateAfter
  | releaseDateBefore
  | text
deriving DecidableEq

/-- The runtime-typed union carried by `entity.SongFilter.Value` (Go `any`);
only the three types the repository's type switch inspects are relevant. -/
inductive FilterValue where
  | str (s : String)
  | int (n : Int)
  | time (t : GoTime)
deriving DecidableEq

/-- Embedded `entity.SongFilter`. -/
structure SongFilter where
  Field : SongFilterField
  Value : FilterValue
deriving DecidableEq

/-- A row of the `songs` table (`postgres.songRow`); `release_date`, `text`
and `link` are nullable columns, modelled with `Option`. -/
structure SongRow where
  ID : Nat
  GroupName : String
  Name : String
  ReleaseDate : Option GoTime
  Text : Option String
  Link : Option String
  CreatedAt : GoTime
  UpdatedAt : GoTime
deriving DecidableEq

/-- ASCII lowering of a character, modelling the case folding performed by
PostgreSQL `ILIKE`. -/
def asciiLower (c : Char) : Char :=
  if 65 ≤ c.toNat ∧ c.toNat ≤ 90 then Char.ofNat (c.toNat + 32) else c

/-- Helper for the `%` wildcard: tries the continuation on every suffix of
the subject string. -/
def tryDrops (f : List Char → Bool) : List Char → Bool
  | [] => f []
  | c :: s => f (c :: s) || tryDrops f s

/-- SQL `LIKE` pattern matching over character lists: `%` matches any
(possibly empty) substring, `_` any single character, anything else itself;
the pattern must cover the whole subject. -/
def likeMatch : List Char → List Char → Bool
  | [], s => s.isEmpty
  | '%' :: p, s => tryDrops (fun t => likeMatch p t) s
  | '_' :: _, [] => false
  | '_' :: p, _ :: s => likeMatch p s
  | _ :: _, [] => false
  | a :: p, c :: s => a == c && likeMatch p s

/-- PostgreSQL `ILIKE`: case-insensitive `LIKE` (both sides lowered). -/
def ilike (pat s : List Char) : Bool :=
  likeMatch (pat.map asciiLower) (s.map asciiLower)

/-- The WHERE-clause predicate contributed by one `entity.SongFilter`,
translated case by case from `SongRepository.applySongFilters`: a value of
the wrong runtime type adds no condition (the row passes), and a SQL
comparison against a `NULL` column never matches. -/
def songFilterMatches (filter : SongFilter) (row : SongRow) : Bool :=
  match filter.Field with
  | SongFilterField.groupName =>
    match filter.Value with
    | FilterValue.str v => ilike ('%' :: v.data ++ ['%']) row.GroupName.data
    | _ => true
  | SongFilterField.name =>
    match filter.Value with
    | FilterValue.str v => ilike ('%' :: v.data ++ ['%']) row.Name.data
    | _ => true
  | SongFilterField.releaseYear =>
    match filter.Value with
    | FilterValue.int n =>
      match row.ReleaseDate with
      | some d => decide ((d.Year : Int) = n)
      | none => false
    | _ => true
  | SongFilterField.releaseDate =>
    match filter.Value with
    | FilterValue.time t =>
      match row.ReleaseDate with
      | some d => decide (d = t)
      | none => false
    | _ => true
  | SongFilterField.releaseDateAfter =>
    match filter.Value with
    | FilterValue.time t =>
      match row.ReleaseDate with
      | some d => GoTime.ltb t d
      | none => false
    | _ => true
  | SongFilterField.releaseDateBefore =>
    match filter.Value with
    | FilterValue.time t =>
      match row.ReleaseDate with
      | some d => GoTime.ltb d t
      | none => false
    | _ => true
  | SongFilterField.text =>
    match filter.Value with
    | FilterValue.str v =>
      match row.Text with
      | some s => ilike v.data s.data
      | none => false
    | _ => true

/-- Conjunction of all supplied filters (squirrel chains `Where` with AND). -/
def matchesFilters (filters : List SongFilter) (row : SongRow) : Bool :=
  filters.all (fun f => songFilterMatches f row)

/-- Embedded `SongRepository.rowToEntity`; a `NULL` column scans into the Go
zero value. -/
def rowToEntity (row : SongRow) : Song :=
  { ID := row.ID
    GroupName := row.GroupName
    Name := row.Name
    SongDetail :=
      { ReleaseDate := row.ReleaseDate.getD GoTime.zero
        Text := row.Text.getD ""
        Link := row.Link.getD "" }
    CreatedAt := row.CreatedAt
    UpdatedAt := row.UpdatedAt }

/-- Values that can appear in the dynamic SET-clause map of
`SongRepository.entityToMap`. -/
inductive DBValue where
  | str (s : String)
  | time (t : GoTime)
deriving DecidableEq

/-- Embedded `SongRepository.entityToMap`: the dynamic update map, keeping
only non-empty / non-zero fields. -/
def entityToMap (song : Song) : List (String × DBValue) :=
  (if song.GroupName ≠ "" then [("group_name", DBValue.str song.GroupName)] else []) ++
  (if song.Name ≠ "" then [("name", DBValue.str song.Name)] else []) ++
  (if song.SongDetail.ReleaseDate.IsZero then []
   else [("release_date", DBValue.time song.SongDetail.ReleaseDate)]) ++
  (if song.SongDetail.Text ≠ "" then [("text", DBValue.str song.SongDetail.Text)] else []) ++
  (if song.SongDetail.Link ≠ "" then [("link", DBValue.str song.SongDetail.Link)] else [])

/-- Application of one SET clause to a stored row (the effect of
`UPDATE songs SET «key» = «value»`). -/
def applyClause (row : SongRow) (kv : String × DBValue) : SongRow :=
  match kv with
  | ("group_name", DBValue.str v) => { row with GroupName := v }
  | ("name", DBValue.str v) => { row with Name := v }
  | ("release_date", DBValue.time t) => { row with ReleaseDate := some t }
  | ("text", DBValue.str v) => { row with Text := some v }
  | ("link", DBValue.str v) => { row with Link := some v }
  | _ => row

/-- Failure kinds surfaced by the repository: `entity.ErrSongNotFound`,
the "no fields provided for update" error, and the "missing required
fields" error of `Save`. -/
inductive RepoError where
  | notFound
  | noFieldsToUpdate
  | missingRequiredFields
deriving DecidableEq

/-- Embedded `SongRepository.GetAll` over the list-of-rows table model:
WHERE filters then OFFSET/LIMIT for the page, but the separate
`SELECT COUNT(*) FROM songs` that fills `Total` carries no WHERE clause,
exactly as in the source. -/
def SongRepository.GetAll (db : List SongRow) (pagination : Pagination)
    (filters : List SongFilter) : List Song × Pagination :=
  let p := pagination.applyDefault
  let rows := ((db.filter (fun row => matchesFilters filters row)).drop p.Offset).take p.Limit
  let totalCount := db.length
  (rows.map rowToEntity, { p with Items := rows.length, Total := totalCount })

/-- Result of `SongRepository.Update`: the Go return value, the table after
the call, and whether an UPDATE statement reached the database at all. -/
structure UpdateResult where
  result : Except RepoError Song
  db : List SongRow
  sqlExecuted : Bool

/-- Embedded `SongRepository.Update`: builds the SET map via `entityToMap`,
rejects an empty map before touching the store, otherwise executes
`UPDATE … WHERE id = songID RETURNING *` (no matching row gives
`sql.ErrNoRows`, reported as not-found). -/
def SongRepository.Update (db : List SongRow) (songID : Nat) (song : Song) : UpdateResult :=
  let clauses := entityToMap song
  if clauses.isEmpty then
    ⟨Except.error RepoError.noFieldsToUpdate, db, false⟩
  else
    let db' := db.map (fun row =>
      if row.ID == songID then clauses.foldl applyClause row else row)
    match db.find? (fun row => row.ID == songID) with
    | none => ⟨Except.error RepoError.notFound, db', true⟩
    | some row => ⟨Except.ok (rowToEntity (clauses.foldl applyClause row)), db', true⟩

/-- Embedded `SongRepository.Delete`: `DELETE … WHERE id = songID`, then the
affected-count check (0 rows is a not-found failure). -/
def SongRepository.Delete (db : List SongRow) (songID : Nat) :
    Except RepoError Nat × List SongRow :=
  let rowsAffected := (db.filter (fun row => row.ID == songID)).length
  let db' := db.filter (fun row => row.ID != songID)
  if rowsAffected == 0 then (Except.error RepoError.notFound, db')
  else (Except.ok rowsAffected, db')

/-- Error reported by the external music-info API collaborator. -/
structure ApiError where
  msg : String
deriving DecidableEq

/-- Failure kinds of `SongUseCase.AddSong`; each wraps its cause, matching
the `fmt.Errorf("…: %w", err)` wrapping in the source. -/
inductive AddSongError where
  | fetchFailed (e : ApiError)
  | saveFailed (e : RepoError)
deriving DecidableEq

/-- Embedded `SongUseCase.AddSong` with the two collaborators as explicit
parameters: the outcome of `musicInfoApi.FetchSongInfo` and the
repository `Save` function.  The second component counts how many times
`Save` was invoked. -/
def SongUseCase.AddSong (fetchResult : Except ApiError SongDetail)
    (save : Song → Except RepoError Song) (song : Song) :
    Except AddSongError Song × Nat :=
  match fetchResult with
  | Except.error e => (Except.error (AddSongError.fetchFailed e), 0)
  | Except.ok songDetail =>
    let song' := { song with SongDetail := songDetail }
    match save song' with
    | Except.error e => (Except.error (AddSongError.saveFailed e), 1)
    | Except.ok savedSong => (Except.ok savedSong, 1)

/-- The verse splitter: Go `strings.Split(text, "\n\n")` specialised to its
fixed separator.  `acc` holds the characters of the verse being built. -/
def splitOnDoubleNL : List Char → List Char → List String
  | acc, '\n' :: '\n' :: rest => String.mk acc.reverse :: splitOnDoubleNL [] rest
  | acc, c :: rest => splitOnDoubleNL (c :: acc) rest
  | acc, [] => [String.mk acc.reverse]

/-- Verse segmentation of a song text, as used by
`SongUseCase.FetchSongWithVerses`. -/
def splitVerses (s : String) : List String :=
  splitOnDoubleNL [] s.data

/-- One more than the largest Go `uint64`. -/
def U64 : Nat := 2 ^ 64

/-- The slice bounds computed by `SongUseCase.FetchSongWithVerses`: the
offset clamp, the `offset + pagination.Limit` addition in `uint64`
arithmetic, and the end clamp. -/
def verseBounds (versesCount : Nat) (p : Pagination) : Nat × Nat :=
  let offset := if p.Offset > versesCount then versesCount else p.Offset
  let limit := (offset + p.Limit) % U64
  let limit' := if limit > versesCount then versesCount else limit
  (offset, limit')

/-- Go slicing `xs[a:b]`: defined when `a ≤ b ≤ len(xs)`, otherwise a
run-time panic, modelled as `none`. -/
def goSlice (xs : List String) (a b : Nat) : Option (List String) :=
  if a ≤ b ∧ b ≤ xs.length then some ((xs.drop a).take (b - a)) else none

/-- Embedded `SongUseCase.FetchSongWithVerses`, given the song already
loaded by `GetByID`: split the text, default empty pagination, clamp the
bounds, slice, and fill `Items`/`Total`.  A panic of the slice expression
surfaces as `none`. -/
def SongUseCase.FetchSongWithVerses (song : Song) (pagination : Pagination) :
    Option (SongWithVerses × Pagination) :=
  let verses := splitVerses song.SongDetail.Text
  let versesCount := verses.length
  let p := pagination.applyDefault
  let bounds := verseBounds versesCount p
  match goSlice verses bounds.1 bounds.2 with
  | none => none
  | some sl =>
    some
      ({ ID := song.ID
         GroupName := song.GroupName
         Name := song.Name
         Verses := sl
         CreatedAt := song.CreatedAt
         UpdatedAt := song.UpdatedAt },
       { p with Items := sl.length, Total := versesCount })

/-- Embedded `SongUseCase.ModifySong`: delegates to the repository `Update`
(the use case only wraps the error message). -/
def SongUseCase.ModifySong (db : List SongRow) (songID : Nat) (song : Song) : UpdateResult :=
  SongRepository.Update db songID song

/-- Embedded `SongUseCase.RemoveSong`: delegates to the repository `Delete`
(the use case only wraps the error message). -/
def SongUseCase.RemoveSong (db : List SongRow) (songID : Nat) :
    Except RepoError Nat × List SongRow :=
  SongRepository.Delete db songID

/-- A LIKE pattern value is wildcard-free when it contains neither `%`
nor `_`. -/
def NoWild (l : List Char) : Prop := ∀ c ∈ l, c ≠ '%' ∧ c ≠ '_'

/-- Modelled from the spec: "substring match, case-insensitive" — the value
occurs inside the stored field after lowering both. -/
def substringCI (v s : String) : Bool :=
  decide ((v.data.map asciiLower) <:+: (s.data.map asciiLower))

/-- Case-insensitive equality of whole strings (what `text ILIKE value`
amounts to for a wildcard-free value). -/
def wholeEqCI (v s : String) : Bool :=
  decide (v.data.map asciiLower = s.data.map asciiLower)

/-- The Go zero value of `entity.Song`. -/
def emptySong : Song :=
  ⟨0, "", "", ⟨GoTime.zero, "", ""⟩, GoTime.zero, GoTime.zero⟩

instance noWildDecidable (l : List Char) : Decidable (NoWild l) :=
  List.decidableBAll (fun c => c ≠ '%' ∧ c ≠ '_') l

/-- Sample table for exercising `SongRepository.GetAll`. -/
def c1Rows : List SongRow :=
  [⟨1, "Alpha", "One", none, none, none, GoTime.zero, GoTime.zero⟩,
   ⟨2, "Beta", "Two", none, none, none, GoTime.zero, GoTime.zero⟩]

/-- A group-name filter matching exactly one row of `c1Rows`. -/
def c1Filter : SongFilter := ⟨SongFilterField.groupName, FilterValue.str "alpha"⟩

/-- Sample row with lyric text, for exercising the text filter. -/
def c2Row : SongRow :=
  ⟨2, "Muse", "Supermassive", none, some "Is this the real life?", none,
   GoTime.zero, GoTime.zero⟩

/-- Sample one-row table for exercising `SongRepository.Update`. -/
def c3DB : List SongRow := [⟨1, "Alpha", "Hymn", none, none, none, GoTime.zero, GoTime.zero⟩]

/-- A partial song carrying only a new group name. -/
def c3Patch : Song := ⟨0, "Xenon", "", ⟨GoTime.zero, "", ""⟩, GoTime.zero, GoTime.zero⟩

/-- A partial song carrying only new lyric text. -/
def c3TextPatch : Song :=
  ⟨0, "", "", ⟨GoTime.zero, "Brand new words", ""⟩, GoTime.zero, GoTime.zero⟩

/-! ### Helper lemmas -/

/-- The verse splitter never returns an empty list. -/
theorem splitOnDoubleNL_length_pos (acc l) : 1 ≤ (splitOnDoubleNL acc l).length := by
  induction acc, l using splitOnDoubleNL.induct with
  | case1 acc rest ih => simp [splitOnDoubleNL]
  | case2 acc c rest h ih => simp [splitOnDoubleNL, h]; exact ih
  | case3 acc => simp [splitOnDoubleNL]

/-- Default substitution keeps the offset-plus-limit sum below `2 ^ 64`. -/
theorem applyDefault_sum_lt {p : Pagination} (h : p.Offset + p.Limit < U64) :
    p.applyDefault.Offset + p.applyDefault.Limit < U64 := by
  by_cases hb : p.IsEmpty
  · simp [Pagination.applyDefault, hb, Pagination.SetDefault, DefaultOffset, DefaultLimit, U64]
  · simpa [Pagination.applyDefault, hb] using h

/-- In the overflow-free regime the slice bounds are the two clamped values. -/
theorem verseBounds_eq (N : Nat) (q : Pagination) (h : q.Offset + q.Limit < U64) :
    verseBounds N q = (min q.Offset N, min (min q.Offset N + q.Limit) N) := by
  simp only [verseBounds]
  have ha : (if q.Offset > N then N else q.Offset) = min q.Offset N := by
    rw [Nat.min_def]; split_ifs <;> omega
  rw [ha]
  have hmod : (min q.Offset N + q.Limit) % U64 = min q.Offset N + q.Limit := by
    apply Nat.mod_eq_of_lt
    have : min q.Offset N ≤ q.Offset := Nat.min_le_left _ _
    omega
  rw [hmod]
  have hb : (if min q.Offset N + q.Limit > N then N else min q.Offset N + q.Limit)
      = min (min q.Offset N + q.Limit) N := by
    rw [Nat.min_def]; split_ifs <;> omega
  rw [hb]

/-- Closed form of `SongUseCase.FetchSongWithVerses` when the addition
`offset + limit` does not overflow `uint64`. -/
theorem fetch_eval (song : Song) (p : Pagination)
    (h : p.applyDefault.Offset + p.applyDefault.Limit < U64) :
    SongUseCase.FetchSongWithVerses song p =
      some (⟨song.ID, song.GroupName, song.Name,
             ((splitVerses song.SongDetail.Text).drop
                 (min p.applyDefault.Offset (splitVerses song.SongDetail.Text).length)).take
               (min (min p.applyDefault.Offset (splitVerses song.SongDetail.Text).length
                       + p.applyDefault.Limit)
                  (splitVerses song.SongDetail.Text).length
                - min p.applyDefault.Offset (splitVerses song.SongDetail.Text).length),
             song.CreatedAt, song.UpdatedAt⟩,
            ⟨p.applyDefault.Offset, p.applyDefault.Limit,
             min (min p.applyDefault.Offset (splitVerses song.SongDetail.Text).length
                    + p.applyDefault.Limit)
               (splitVerses song.SongDetail.Text).length
              - min p.applyDefault.Offset (splitVerses song.SongDetail.Text).length,
             (splitVerses song.SongDetail.Text).length⟩) := by
  simp only [SongUseCase.FetchSongWithVerses, verseBounds, goSlice]
  set N := (splitVerses song.SongDetail.Text).length with hN
  set q := p.applyDefault with hq
  have ha : (if q.Offset > N then N else q.Offset) = min q.Offset N := by
    rw [Nat.min_def]; split_ifs <;> omega
  rw [ha]
  have hmod : (min q.Offset N + q.Limit) % U64 = min q.Offset N + q.Limit := by
    apply Nat.mod_eq_of_lt
    have : min q.Offset N ≤ q.Offset := Nat.min_le_left _ _
    omega
  rw [hmod]
  have hb : (if min q.Offset N + q.Limit > N then N else min q.Offset N + q.Limit)
      = min (min q.Offset N + q.Limit) N := by
    rw [Nat.min_def]; split_ifs <;> omega
  rw [hb]
  have hcond : min q.Offset N ≤ min (min q.Offset N + q.Limit) N
      ∧ min (min q.Offset N + q.Limit) N ≤ N := by
    constructor
    · have h1 : min q.Offset N ≤ min q.Offset N + q.Limit := Nat.le_add_right _ _
      have h2 : min q.Offset N ≤ N := Nat.min_le_right _ _
      omega
    · exact Nat.min_le_right _ _
  rw [if_pos hcond]
  have hlen : (((splitVerses song.SongDetail.Text).drop (min q.Offset N)).take
      (min (min q.Offset N + q.Limit) N - min q.Offset N)).length
      = min (min q.Offset N + q.Limit) N - min q.Offset N := by
    rw [List.length_take, List.length_drop, ← hN]
    omega
  simp only [hlen]

/-- The fold of SET clauses built from a partial song with empty group name
and title leaves the row's group name and title untouched. -/
theorem foldl_applyClause_preserves (song : Song) (h1 : song.GroupName = "")
    (h2 : song.Name = "") (row : SongRow) :
    ((entityToMap song).foldl applyClause row).GroupName = row.GroupName
    ∧ ((entityToMap song).foldl applyClause row).Name = row.Name := by
  simp [entityToMap, h1, h2]
  split_ifs <;> simp [applyClause]

/-- Lowering preserves the property of not being the `%` wildcard. -/
theorem asciiLower_ne_pct {c : Char} (h : c ≠ '%') : asciiLower c ≠ '%' := by
  unfold asciiLower
  split_ifs with hr
  · intro habs
    obtain ⟨h1, h2⟩ := hr
    generalize hg : c.toNat = n at h1 h2 habs
    interval_cases n <;> exact absurd habs (by decide)
  · exact h

/-- Lowering preserves the property of not being the `_` wildcard. -/
theorem asciiLower_ne_us {c : Char} (h : c ≠ '_') : asciiLower c ≠ '_' := by
  unfold asciiLower
  split_ifs with hr
  · intro habs
    obtain ⟨h1, h2⟩ := hr
    generalize hg : c.toNat = n at h1 h2 habs
    interval_cases n <;> exact absurd habs (by decide)
  · exact h

/-- Lowering a wildcard-free pattern keeps it wildcard-free. -/
theorem noWild_map {l : List Char} (h : NoWild l) : NoWild (l.map asciiLower) := by
  intro c hc
  obtain ⟨a, ha, rfl⟩ := List.mem_map.mp hc
  exact ⟨asciiLower_ne_pct (h a ha).1, asciiLower_ne_us (h a ha).2⟩

/-- Characterisation of the suffix search performed for a `%` wildcard. -/
theorem tryDrops_iff (f : List Char → Bool) (s : List Char) :
    tryDrops f s = true ↔ ∃ n, f (s.drop n) = true := by
  induction s with
  | nil =>
    constructor
    · exact fun h => ⟨0, h⟩
    · rintro ⟨n, hn⟩
      simpa [tryDrops] using hn
  | cons c s ih =>
    simp only [tryDrops, Bool.or_eq_true, ih]
    constructor
    · rintro (h | ⟨n, hn⟩)
      · exact ⟨0, h⟩
      · exact ⟨n + 1, hn⟩
    · rintro ⟨n, hn⟩
      cases n with
      | zero => exact Or.inl hn
      | succ n => exact Or.inr ⟨n, hn⟩

/-- Unfolding equation of `likeMatch` for a leading `%` wildcard. -/
theorem likeMatch_star (p s : List Char) :
    likeMatch ('%' :: p) s = tryDrops (fun t => likeMatch p t) s := by
  cases s <;> rfl

set_option maxRecDepth 4000 in
/-- Unfolding equation of `likeMatch` for a plain pattern head against the
empty subject. -/
theorem likeMatch_cons_nil {a : Char} (h1 : a ≠ '%') (h2 : a ≠ '_') (p : List Char) :
    likeMatch (a :: p) [] = false := by
  rw [likeMatch.eq_def]
  simp [h1, h2]

set_option maxRecDepth 4000 in
/-- Unfolding equation of `likeMatch` for a plain pattern head against a
non-empty subject. -/
theorem likeMatch_cons_cons {a : Char} (h1 : a ≠ '%') (h2 : a ≠ '_') (p : List Char)
    (c : Char) (s : List Char) :
    likeMatch (a :: p) (c :: s) = (a == c && likeMatch p s) := by
  rw [likeMatch.eq_def]
  simp [h1, h2]

set_option maxRecDepth 8000 in
/-- A wildcard-free pattern matches exactly itself. -/
theorem likeMatch_plain {v : List Char} (h : NoWild v) (s : List Char) :
    likeMatch v s = true ↔ v = s := by
  induction v generalizing s with
  | nil =>
    cases s <;> simp [likeMatch]
  | cons a v ih =>
    have ha := h a (List.mem_cons_self a v)
    have hv : NoWild v := fun c hc => h c (List.mem_cons_of_mem a hc)
    cases s with
    | nil => simp [likeMatch_cons_nil ha.1 ha.2]
    | cons c s =>
      rw [likeMatch_cons_cons ha.1 ha.2]
      simp [ih hv]

/-- The pattern `%` alone matches everything. -/
theorem likeMatch_star_all (s : List Char) : likeMatch ['%'] s = true := by
  induction s with
  | nil => decide
  | cons c s ih =>
    rw [likeMatch_star] at ih ⊢
    simp only [tryDrops, Bool.or_eq_true]
    exact Or.inr ih

set_option maxRecDepth 8000 in
/-- A wildcard-free pattern followed by `%` matches exactly the subjects it
prefixes. -/
theorem likeMatch_plain_star {v : List Char} (h : NoWild v) (s : List Char) :
    likeMatch (v ++ ['%']) s = true ↔ v <+: s := by
  induction v generalizing s with
  | nil =>
    simpa using likeMatch_star_all s
  | cons a v ih =>
    have ha := h a (List.mem_cons_self a v)
    have hv : NoWild v := fun c hc => h c (List.mem_cons_of_mem a hc)
    cases s with
    | nil =>
      rw [List.cons_append, likeMatch_cons_nil ha.1 ha.2]
      simp [List.prefix_nil]
    | cons c s =>
      rw [List.cons_append, likeMatch_cons_cons ha.1 ha.2]
      simp [ih hv, List.cons_prefix_cons]

/-- Being a prefix of some suffix is the same as being an infix. -/
theorem exists_drop_prefix_iff (v s : List Char) :
    (∃ n, v <+: s.drop n) ↔ v <:+: s := by
  constructor
  · rintro ⟨n, t, ht⟩
    exact ⟨s.take n, t, by rw [List.append_assoc, ht, List.take_append_drop]⟩
  · rintro ⟨a, b, hab⟩
    refine ⟨a.length, b, ?_⟩
    rw [← hab, List.append_assoc, List.drop_left]

/-- An `ILIKE` with the value wrapped in `%…%` is case-insensitive substring
containment, for wildcard-free values. -/
theorem ilike_sub_iff {v : List Char} (h : NoWild v) (s : List Char) :
    (ilike ('%' :: v ++ ['%']) s = true) ↔ (v.map asciiLower) <:+: (s.map asciiLower) := by
  unfold ilike
  have hpct : asciiLower '%' = '%' := by decide
  have hm : ('%' :: v ++ ['%']).map asciiLower = '%' :: (v.map asciiLower ++ ['%']) := by
    simp [hpct]
  rw [hm, likeMatch_star, tryDrops_iff]
  have hw := noWild_map h
  constructor
  · rintro ⟨n, hn⟩
    exact (exists_drop_prefix_iff _ _).mp ⟨n, (likeMatch_plain_star hw _).mp hn⟩
  · intro hinf
    obtain ⟨n, hpre⟩ := (exists_drop_prefix_iff _ _).mpr hinf
    exact ⟨n, (likeMatch_plain_star hw _).mpr hpre⟩

/-- An `ILIKE` with a bare wildcard-free value is case-insensitive equality
of the whole strings. -/
theorem ilike_plain_iff {v : List Char} (h : NoWild v) (s : List Char) :
    (ilike v s = true) ↔ v.map asciiLower = s.map asciiLower := by
  unfold ilike
  exact likeMatch_plain (noWild_map h) _

/-! ### Claim theorems -/

/-- Claim C1: the `Pagination.Total` returned by `SongRepository.GetAll` is
the length of the whole table regardless of the supplied filters, so on the
sample table of two rows with a group-name filter matching exactly one row
it reports 2 instead of the matching count 1 — the count query carries no
WHERE clause. -/
theorem C1_total_counts_all_rows :
    (∀ (db : List SongRow) (p : Pagination) (filters : List SongFilter),
        ((SongRepository.GetAll db p filters).2).Total = db.length)
  ∧ (((SongRepository.GetAll c1Rows ⟨0, 0, 0, 0⟩ [c1Filter]).2).Total = 2)
  ∧ ((c1Rows.filter (fun row => songFilterMatches c1Filter row)).length = 1) :=
  ⟨fun db p filters => rfl, by decide, by decide⟩

/-- Claim C2, counterexample: the text filter with value `"real"` does not
match a stored text containing `"real"` as a substring, although the
case-insensitive substring relation holds — the repository passes the raw
value to `ILIKE` without wrapping it in `%…%`. -/
theorem C2_text_filter_not_substring_cex :
    (songFilterMatches ⟨SongFilterField.text, FilterValue.str "real"⟩ c2Row = false)
  ∧ (substringCI "real" "Is this the real life?" = true) :=
  ⟨by decide, by decide⟩

/-- Claim C2 (amended): for a wildcard-free value, the group-name and title
filters match exactly case-insensitive substring containment, while the
text filter matches exactly case-insensitive equality of the whole stored
text (and never matches a `NULL` text column). -/
theorem C2_filter_match_amended (v : String) (row : SongRow) (hw : NoWild v.data) :
    (songFilterMatches ⟨SongFilterField.groupName, FilterValue.str v⟩ row
        = substringCI v row.GroupName)
  ∧ (songFilterMatches ⟨SongFilterField.name, FilterValue.str v⟩ row
        = substringCI v row.Name)
  ∧ (songFilterMatches ⟨SongFilterField.text, FilterValue.str v⟩ row
        = match row.Text with
          | some t => wholeEqCI v t
          | none => false) := by
  refine ⟨?_, ?_, ?_⟩
  · rw [Bool.eq_iff_iff]
    simp only [songFilterMatches, substringCI, decide_eq_true_eq]
    exact ilike_sub_iff hw _
  · rw [Bool.eq_iff_iff]
    simp only [songFilterMatches, substringCI, decide_eq_true_eq]
    exact ilike_sub_iff hw _
  · cases ht : row.Text with
    | none => simp [songFilterMatches, ht]
    | some t =>
      simp only [songFilterMatches, ht]
      rw [Bool.eq_iff_iff]
      simp only [wholeEqCI, decide_eq_true_eq]
      exact ilike_plain_iff hw _

/-- Claim C2, witness: the amended equivalences evaluated on the sample row
with the wildcard-free value `"real"`. -/
theorem C2_witness :
    NoWild "real".data
    ∧ ((songFilterMatches ⟨SongFilterField.groupName, FilterValue.str "real"⟩ c2Row
          = substringCI "real" c2Row.GroupName)
      ∧ (songFilterMatches ⟨SongFilterField.name, FilterValue.str "real"⟩ c2Row
          = substringCI "real" c2Row.Name)
      ∧ (songFilterMatches ⟨SongFilterField.text, FilterValue.str "real"⟩ c2Row
          = match c2Row.Text with
            | some t => wholeEqCI "real" t
            | none => false)) :=
  ⟨by decide, C2_filter_match_amended "real" c2Row (by decide)⟩

/-- Claim C3, counterexample: a partial song carrying only a new group name
changes the stored group name through `SongRepository.Update`, so group
name is not immutable under the update operation. -/
theorem C3_group_title_mutable_cex :
    ((SongRepository.Update c3DB 1 c3Patch).db.map SongRow.GroupName = ["Xenon"])
  ∧ (c3DB.map SongRow.GroupName = ["Alpha"]) := by
  constructor <;> decide

/-- Claim C3 (amended): `SongRepository.Update` leaves every stored group
name and title unchanged exactly when the partial song's group name and
title are empty (all five non-empty fields are written, group name and
title included). -/
theorem C3_empty_fields_unchanged_amended (db : List SongRow) (songID : Nat) (song : Song)
    (h1 : song.GroupName = "") (h2 : song.Name = "") :
    (SongRepository.Update db songID song).db.map (fun row => (row.GroupName, row.Name))
      = db.map (fun row => (row.GroupName, row.Name)) := by
  have hpres := foldl_applyClause_preserves song h1 h2
  unfold SongRepository.Update
  by_cases hc : (entityToMap song).isEmpty
  · simp [hc]
  · cases hfind : db.find? (fun row => row.ID == songID) <;>
      simp only [hc, hfind, Bool.false_eq_true, if_false, List.map_map] <;>
      refine List.map_congr_left (fun row hrow => ?_) <;>
      by_cases hid : row.ID = songID <;>
      simp [hid, (hpres row).1, (hpres row).2]

/-- Claim C3, witness: a text-only partial update leaves the stored group
name and title of the sample table unchanged. -/
theorem C3_witness :
    (SongRepository.Update c3DB 1 c3TextPatch).db.map (fun row => (row.GroupName, row.Name))
      = c3DB.map (fun row => (row.GroupName, row.Name)) :=
  C3_empty_fields_unchanged_amended c3DB 1 c3TextPatch rfl rfl

/-- Claim C4, counterexample: with verse count 3, offset 2 and limit
`2 ^ 64 - 1`, the `uint64` addition `offset + limit` wraps to 1, the slice
bounds become `[2:1]`, and `SongUseCase.FetchSongWithVerses` panics instead
of returning `items = min(limit, N - offset)`. -/
theorem C4_overflow_cex :
    (SongUseCase.FetchSongWithVerses
      ⟨2, "g", "n", ⟨GoTime.zero, "x\n\ny\n\nz", ""⟩, GoTime.zero, GoTime.zero⟩
      ⟨2, U64 - 1, 0, 0⟩ = none)
  ∧ 2 < (splitVerses "x\n\ny\n\nz").length := by
  constructor <;> decide

/-- Claim C4 (amended): whenever `offset + limit` does not overflow
`uint64`, `SongUseCase.FetchSongWithVerses` returns a pagination summary
with `total` equal to the verse count `N` and `items = 0` when the
effective offset is at least `N`, `items = min(limit, N - offset)`
otherwise. -/
theorem C4_pagination_math_amended (song : Song) (p : Pagination)
    (hl : p.Offset + p.Limit < U64) :
    (SongUseCase.FetchSongWithVerses song p).map (fun r => ((r.2).Items, (r.2).Total))
      = some
        ((if (splitVerses song.SongDetail.Text).length ≤ p.applyDefault.Offset then 0
          else min p.applyDefault.Limit
            ((splitVerses song.SongDetail.Text).length - p.applyDefault.Offset)),
         (splitVerses song.SongDetail.Text).length) := by
  rw [fetch_eval song p (applyDefault_sum_lt hl)]
  simp only [Option.map_some', Option.some.injEq, Prod.mk.injEq]
  refine ⟨?_, trivial⟩
  split_ifs <;> omega

/-- Claim C4, witness: the amended formula evaluated on a three-verse song
with offset 1 and limit 5 yields `items = 2`, `total = 3`. -/
theorem C4_witness :
    (1 + 5 < U64)
    ∧ (SongUseCase.FetchSongWithVerses
        ⟨1, "g", "n", ⟨GoTime.zero, "a\n\nb\n\nc", ""⟩, GoTime.zero, GoTime.zero⟩
        ⟨1, 5, 0, 0⟩).map (fun r => ((r.2).Items, (r.2).Total)) = some (2, 3) :=
  ⟨by decide, by
    have h := C4_pagination_math_amended
      ⟨1, "g", "n", ⟨GoTime.zero, "a\n\nb\n\nc", ""⟩, GoTime.zero, GoTime.zero⟩
      ⟨1, 5, 0, 0⟩ (by decide)
    simpa using h⟩

/-- Claim C5: the pair `(0, 0)` is the only defaulting sentinel — it is
replaced by `(0, 20)`; any other offset/limit combination (including
`(0, 5)`) is used literally, and an explicit limit 0 with a non-zero
offset produces a page with `items = 0`. -/
theorem C5_defaulting_sentinel (o l i t : Nat) (song : Song) :
    ((Pagination.mk 0 0 i t).applyDefault = Pagination.mk 0 20 i t)
  ∧ (¬(o = 0 ∧ l = 0) → (Pagination.mk o l i t).applyDefault = Pagination.mk o l i t)
  ∧ ((Pagination.mk 0 5 0 0).applyDefault = Pagination.mk 0 5 0 0)
  ∧ (o ≠ 0 → o < U64 →
      (SongUseCase.FetchSongWithVerses song (Pagination.mk o 0 i t)).map
          (fun r => (r.2).Items)
        = some 0) := by
  refine ⟨rfl, ?_, rfl, ?_⟩
  · intro h
    have hne : (Pagination.mk o l i t).IsEmpty = false := by
      simp [Pagination.IsEmpty]
      omega
    simp [Pagination.applyDefault, hne]
  · intro ho hU
    have hne : (Pagination.mk o 0 i t).IsEmpty = false := by
      simp [Pagination.IsEmpty]
      omega
    have hq : (Pagination.mk o 0 i t).applyDefault = Pagination.mk o 0 i t := by
      simp [Pagination.applyDefault, hne]
    have hsum : (Pagination.mk o 0 i t).applyDefault.Offset
        + (Pagination.mk o 0 i t).applyDefault.Limit < U64 := by
      rw [hq]; simpa using hU
    rw [fetch_eval song _ hsum]
    simp [hq]

/-- Claim C5, witness: the non-sentinel case at `(0, 5)` and the literal
zero-limit case at offset 3 on a concrete song. -/
theorem C5_witness :
    (¬(0 = 0 ∧ 5 = 0))
    ∧ (3 ≠ 0) ∧ (3 < U64)
    ∧ ((Pagination.mk 0 5 1 1).applyDefault = Pagination.mk 0 5 1 1)
    ∧ ((SongUseCase.FetchSongWithVerses emptySong (Pagination.mk 3 0 0 0)).map
        (fun r => (r.2).Items) = some 0) :=
  ⟨by decide, by decide, by decide,
   (C5_defaulting_sentinel 0 5 1 1 emptySong).2.1 (by decide),
   (C5_defaulting_sentinel 3 0 0 0 emptySong).2.2.2 (by decide) (by decide)⟩

/-- Claim C6: verse segmentation splits on the double line-break only —
`"a\n\nb\n\nc"` yields exactly `["a", "b", "c"]`, the empty text yields
exactly `[""]`, and no text ever yields an empty verse sequence. -/
theorem C6_verse_segmentation :
    (splitVerses "a\n\nb\n\nc" = ["a", "b", "c"])
  ∧ (splitVerses "" = [""])
  ∧ (∀ s : String, 1 ≤ (splitVerses s).length) :=
  ⟨by decide, by decide, fun s => splitOnDoubleNL_length_pos [] s.data⟩

/-- Claim C7, counterexample: with verse count 2, offset 1 and limit
`2 ^ 64 - 1`, the computed slice bounds are `start = 1 > end = 0`, so the
verse slice panics — the bounds do not satisfy `start ≤ end` for every
`uint64` offset/limit pair. -/
theorem C7_overflow_cex :
    SongUseCase.FetchSongWithVerses
      ⟨1, "g", "n", ⟨GoTime.zero, "a\n\nb", ""⟩, GoTime.zero, GoTime.zero⟩
      ⟨1, U64 - 1, 0, 0⟩ = none := by decide

/-- Claim C7 (amended): whenever `offset + limit` does not overflow
`uint64`, the slice bounds satisfy `start ≤ end ≤ verse count` and
`SongUseCase.FetchSongWithVerses` returns normally. -/
theorem C7_slice_bounds_amended (song : Song) (p : Pagination)
    (hl : p.Offset + p.Limit < U64) :
    ((verseBounds (splitVerses song.SongDetail.Text).length p.applyDefault).1
      ≤ (verseBounds (splitVerses song.SongDetail.Text).length p.applyDefault).2)
  ∧ ((verseBounds (splitVerses song.SongDetail.Text).length p.applyDefault).2
      ≤ (splitVerses song.SongDetail.Text).length)
  ∧ (SongUseCase.FetchSongWithVerses song p).isSome = true := by
  have h := applyDefault_sum_lt hl
  rw [verseBounds_eq _ _ h, fetch_eval song p h]
  refine ⟨?_, ?_, rfl⟩
  · have h1 : min p.applyDefault.Offset (splitVerses song.SongDetail.Text).length
        ≤ (splitVerses song.SongDetail.Text).length := Nat.min_le_right _ _
    omega
  · exact Nat.min_le_right _ _

/-- Claim C7, witness: the slice bounds and success of the fetch at offset
1, limit 20 on the empty-text song. -/
theorem C7_witness :
    (1 + 20 < U64)
    ∧ (((verseBounds (splitVerses emptySong.SongDetail.Text).length
            (Pagination.mk 1 20 0 0).applyDefault).1
          ≤ (verseBounds (splitVerses emptySong.SongDetail.Text).length
              (Pagination.mk 1 20 0 0).applyDefault).2)
      ∧ ((verseBounds (splitVerses emptySong.SongDetail.Text).length
            (Pagination.mk 1 20 0 0).applyDefault).2
          ≤ (splitVerses emptySong.SongDetail.Text).length)
      ∧ (SongUseCase.FetchSongWithVerses emptySong (Pagination.mk 1 20 0 0)).isSome = true) :=
  ⟨by decide, C7_slice_bounds_amended emptySong (Pagination.mk 1 20 0 0) (by decide)⟩

/-- Claim C8: when the metadata lookup fails, `SongUseCase.AddSong` returns
the wrapped lookup failure and the repository `Save` is invoked zero
times. -/
theorem C8_lookup_failure_no_save (e : ApiError)
    (save : Song → Except RepoError Song) (song : Song) :
    SongUseCase.AddSong (Except.error e) save song
      = (Except.error (AddSongError.fetchFailed e), 0) := rfl

/-- Claim C9: a partial song whose five settable fields are all empty or
zero makes `SongUseCase.ModifySong` fail with the no-fields-to-update
error before any UPDATE statement is executed, leaving the table
unchanged. -/
theorem C9_all_empty_update_fails (db : List SongRow) (songID : Nat) (song : Song)
    (h1 : song.GroupName = "") (h2 : song.Name = "")
    (h3 : song.SongDetail.ReleaseDate.IsZero = true)
    (h4 : song.SongDetail.Text = "") (h5 : song.SongDetail.Link = "") :
    SongUseCase.ModifySong db songID song
      = ⟨Except.error RepoError.noFieldsToUpdate, db, false⟩ := by
  simp [SongUseCase.ModifySong, SongRepository.Update, entityToMap, h1, h2, h3, h4, h5]

/-- Claim C9, witness: the all-empty partial song against the empty table. -/
theorem C9_witness :
    SongUseCase.ModifySong [] 7 emptySong
      = ⟨Except.error RepoError.noFieldsToUpdate, [], false⟩ :=
  C9_all_empty_update_fails [] 7 emptySong rfl rfl rfl rfl rfl

/-- Claim C10: `SongUseCase.RemoveSong` fails with the not-found error
exactly when the delete affects zero rows, and returns the affected count
1 when exactly one row matches the id. -/
theorem C10_delete_affected_count (db : List SongRow) (songID : Nat) :
    ((SongUseCase.RemoveSong db songID).1 = Except.error RepoError.notFound
       ↔ (db.filter (fun row => row.ID == songID)).length = 0)
  ∧ ((db.filter (fun row => row.ID == songID)).length = 1
       → (SongUseCase.RemoveSong db songID).1 = Except.ok 1) := by
  unfold SongUseCase.RemoveSong SongRepository.Delete
  by_cases h : (db.filter (fun row => row.ID == songID)).length = 0
  · simp [h]
  · constructor
    · simp [h]
    · intro h1
      simp [h1]

/-- Claim C10, witness: deleting from the empty table is a not-found
failure; deleting the single matching row of the sample table returns 1. -/
theorem C10_witness :
    ((SongUseCase.RemoveSong [] 5).1 = Except.error RepoError.notFound)
    ∧ ((SongUseCase.RemoveSong c3DB 1).1 = Except.ok 1) :=
  ⟨(C10_delete_affected_count [] 5).1.mpr (by decide),
   (C10_delete_affected_count c3DB 1).2 (by decide)⟩
